import Mathlib

/-!
Verification of the runway crane beam design tool (`runway_beam_v3_6.py`).

The moving-load solver (wheel loads, `analyze_load`, `find_critical`,
`get_governing`) works on plain Python floats with only field arithmetic,
so it is embedded over `ℚ` (exact arithmetic, computable).  The capacity
engine (`check_compact`, plate-girder shear, fatigue, deflection,
`Section.calc_props`) uses `math.sqrt` and fractional powers, so it is
embedded over `ℝ`.  Each Lean definition mirrors the Python function of
the same name; Python's in-place mutation of dataclass fields is modelled
by pure functions returning the computed fields.
-/

namespace RunwayBeam

/-- Source line 35: `GRAVITY = 9.81` (the solver side works over `ℚ`). -/
def GRAVITY : ℚ := 9.81

/-- Source line 33: `E_STEEL = 200000` (MPa), used by the capacity engine. -/
def E_STEEL : ℝ := 200000

/-- The `CraneData` dataclass (source lines 209-235), with the same field
defaults as the Python dataclass.  The mutable "calculated values"
(`R_max`, `R_min`, `max_wheel_load`, `min_wheel_load`) are not stored;
they are recomputed by `calc_wheel_loads` below, which is how the Python
code itself treats them (recomputed before every use). -/
structure CraneData where
  crane_id : ℕ := 1
  capacity_tonnes : ℚ := 10
  bridge_weight : ℚ := 5
  trolley_weight : ℚ := 0.72
  bridge_span : ℚ := 15
  min_hook_approach : ℚ := 1
  wheel_base : ℚ := 2.2
  buffer_left : ℚ := 0.29
  buffer_right : ℚ := 0.29
  num_wheels : ℕ := 2
  impact_v : ℚ := 0.25
  impact_h : ℚ := 0.20
  impact_l : ℚ := 0.10
  use_direct_input : Bool := false
  direct_max_wheel_load : ℚ := 0
  direct_min_wheel_load : ℚ := 0
  direct_lateral_load : ℚ := 0
  deriving DecidableEq

/-- The four values computed by `CraneData.calc_wheel_loads`. -/
structure WheelLoads where
  R_max : ℚ
  R_min : ℚ
  max_wheel_load : ℚ
  min_wheel_load : ℚ
  deriving DecidableEq

/-- `CraneData.calc_wheel_loads` (source lines 237-278).  In the
geometry branch Python divides by `num_wheels`; `ℚ` division by zero
yields `0` where Python would raise, which no claim exercises
(`num_wheels ≥ 2` is a data-model invariant). -/
def calc_wheel_loads (c : CraneData) : WheelLoads :=
  if c.use_direct_input = true ∧ 0 < c.direct_max_wheel_load then
    let maxw := c.direct_max_wheel_load
    let minw := if 0 < c.direct_min_wheel_load then c.direct_min_wheel_load
                else c.direct_max_wheel_load * 0.2
    ⟨maxw * c.num_wheels, minw * c.num_wheels, maxw, minw⟩
  else
    let Lb := c.bridge_span
    let e_min := c.min_hook_approach
    let P_lift := c.capacity_tonnes * GRAVITY
    let P_trolley := c.trolley_weight * GRAVITY
    let P_bridge := c.bridge_weight * GRAVITY
    let R_bridge_each := P_bridge / 2
    let P_moving := P_lift + P_trolley
    let R_moving_max := P_moving * (Lb - e_min) / Lb
    let R_max := R_bridge_each + R_moving_max
    let R_moving_min := P_moving * e_min / Lb
    let R_min := R_bridge_each + R_moving_min
    ⟨R_max, R_min, R_max / c.num_wheels, R_min / c.num_wheels⟩

/-- `CraneData.wheel_load_with_impact` (source lines 280-283). -/
def wheel_load_with_impact (c : CraneData) : ℚ :=
  (calc_wheel_loads c).max_wheel_load * (1 + c.impact_v)

/-- `CraneData.lateral_per_wheel` (source lines 290-298). -/
def lateral_per_wheel (c : CraneData) : ℚ :=
  if c.use_direct_input = true ∧ 0 < c.direct_lateral_load then
    c.direct_lateral_load
  else
    let P_lift := c.capacity_tonnes * GRAVITY
    let P_trolley := c.trolley_weight * GRAVITY
    c.impact_h * (P_lift + P_trolley) / (2 * c.num_wheels)

/-- `CraneData.longitudinal_force` (source lines 300-303). -/
def longitudinal_force (c : CraneData) : ℚ :=
  c.impact_l * (calc_wheel_loads c).R_max

/-- The `WheelPos` dataclass (source lines 320-326). -/
structure WheelPos where
  crane_id : ℕ
  wheel_id : ℕ
  pos : ℚ
  Pv : ℚ
  Ph : ℚ
  deriving DecidableEq

/-- The `LoadCase` dataclass (source lines 329-341). -/
structure LoadCase where
  desc : String
  wheels : List WheelPos
  M_max : ℚ
  M_pos : ℚ
  V_max : ℚ
  V_pos : ℚ
  R_left : ℚ
  R_right : ℚ
  positions : List ℚ := []
  moments : List ℚ := []
  shears : List ℚ := []
  deriving DecidableEq

/-- `best_case.desc = ...` assignment before appending to `results`. -/
def setDesc (s : String) (c : LoadCase) : LoadCase := { c with desc := s }

/-- Removes adjacent duplicates from a sorted list; composed with a sort
this models Python's `sorted(set(...))` (source line 428). -/
def dedupSorted : List ℚ → List ℚ
  | [] => []
  | [x] => [x]
  | x :: y :: rest =>
    if x = y then dedupSorted (y :: rest) else x :: dedupSorted (y :: rest)

/-- Python's `max(range(len(l)), key=lambda i: f(l[i]))`: the first index
whose value maximizes `f` (later indices replace the current best only on
a strictly larger key, exactly as Python's `max` does). -/
def argmaxIdx (f : ℚ → ℚ) (l : List ℚ) : ℕ :=
  (List.range l.length).foldl
    (fun best i => if f (l.getD best 0) < f (l.getD i 0) then i else best) 0

/-- `analyze_load(L, wheels)` (source lines 421-442).  Returns `none` for
an empty wheel list (`if not wheels: return None`). -/
def analyze_load (L : ℚ) (wheels : List WheelPos) : Option LoadCase :=
  if wheels.isEmpty then none
  else
    let sum_P := (wheels.map (fun w => w.Pv)).sum
    let sum_M := (wheels.map (fun w => w.Pv * w.pos)).sum
    let R_r := sum_M / max L 0.1
    let R_l := sum_P - R_r
    let pts := dedupSorted
      ((((0 : ℚ) :: wheels.map (fun w => w.pos)) ++ [L] ++
        (List.range 101).map (fun i => (i : ℚ) * L / 100)).mergeSort
        (fun a b => decide (a ≤ b)))
    let M_at := fun x : ℚ =>
      R_l * x - ((wheels.filter (fun w => decide (w.pos < x))).map
        (fun w => w.Pv * (x - w.pos))).sum
    let V_at := fun x : ℚ =>
      R_l - ((wheels.filter (fun w => decide (w.pos ≤ x))).map
        (fun w => w.Pv)).sum
    let M_list := pts.map M_at
    let V_list := pts.map V_at
    let m_idx := argmaxIdx (fun m => |m|) M_list
    let v_idx := argmaxIdx (fun v => |v|) V_list
    some ⟨"", wheels, M_list.getD m_idx 0, pts.getD m_idx 0,
          |V_list.getD v_idx 0|, pts.getD v_idx 0, R_l, R_r,
          pts, M_list, V_list⟩

/-- `np.linspace(start, stop, n)`: `n` evenly spaced samples including
both endpoints. -/
def linspace (start stop : ℚ) (n : ℕ) : List ℚ :=
  (List.range n).map (fun i => start + (stop - start) * (i : ℚ) / ((n : ℚ) - 1))

/-- The wheel group of one crane with leading wheel at `pos`, with an
explicitly supplied `crane_id` (the two-crane cases of `find_critical`
hardcode ids 1 and 2 instead of using `c.crane_id`). -/
def mkWheelsId (id : ℕ) (c : CraneData) (pos Pv Ph : ℚ) : List WheelPos :=
  (List.range c.num_wheels).map
    (fun w => ⟨id, w + 1, pos + (w : ℚ) * c.wheel_base, Pv, Ph⟩)

/-- Wheel group labelled with the crane's own id (single-crane cases). -/
def craneWheels (c : CraneData) (pos Pv Ph : ℚ) : List WheelPos :=
  mkWheelsId c.crane_id c pos Pv Ph

/-- The `best_M, best_case` sweep pattern of `find_critical`: keep the
analyzed case with the largest `|M_max|`, starting from `best_M = 0`
(strict improvement required, as in the Python loops). -/
def bestMomentCase (L : ℚ) (positions : List ℚ) (mk : ℚ → List WheelPos) :
    Option LoadCase :=
  (positions.foldl
    (fun best pos =>
      match analyze_load L (mk pos) with
      | none => best
      | some case => if best.1 < |case.M_max| then (|case.M_max|, some case) else best)
    ((0 : ℚ), (none : Option LoadCase))).2

/-- The `best_R, best_case` sweep of the two-crane max-reaction search
(source lines 564-579), including the `if p2 + c2_length > L: continue`
guard inside the loop. -/
def bestReactionCase (L : ℚ) (positions : List ℚ) (skip : ℚ → Bool)
    (mk : ℚ → List WheelPos) : Option LoadCase :=
  (positions.foldl
    (fun best pos =>
      if skip pos then best
      else
        match analyze_load L (mk pos) with
        | none => best
        | some case =>
          let max_R := max case.R_left case.R_right
          if best.1 < max_R then (max_R, some case) else best)
    ((0 : ℚ), (none : Option LoadCase))).2

/-- The single-crane block of `find_critical` (source lines 462-497):
max-moment sweep over 60 samples, then max shear with the wheel group at
the left and at the right support.  `if crane_length > L: continue`
contributes nothing for a crane that does not fit. -/
def singleCraneCases (L : ℚ) (c : CraneData) : List LoadCase :=
  let Pv := wheel_load_with_impact c
  let Ph := lateral_per_wheel c
  let crane_length := c.wheel_base * ((c.num_wheels : ℚ) - 1)
  if L < crane_length then []
  else
    let maxM := bestMomentCase L (linspace 0 (L - crane_length) 60)
      (fun pos => craneWheels c pos Pv Ph)
    let vLeft := analyze_load L (craneWheels c 0 Pv Ph)
    let vRight := analyze_load L (craneWheels c (L - crane_length) Pv Ph)
    (maxM.map (setDesc "single crane: max M")).toList ++
    (vLeft.map (setDesc "single crane: max V left")).toList ++
    (vRight.map (setDesc "single crane: max V right")).toList

/-- The two-crane block of `find_critical` (source lines 502-602).  All
cases are generated only when `total_needed <= L`; an infeasible pair is
silently skipped. -/
def twoCraneCases (L : ℚ) (c1 c2 : CraneData) : List LoadCase :=
  let gap := c1.buffer_right + c2.buffer_left
  let Pv1 := wheel_load_with_impact c1
  let Ph1 := lateral_per_wheel c1
  let Pv2 := wheel_load_with_impact c2
  let Ph2 := lateral_per_wheel c2
  let c1_length := c1.wheel_base * ((c1.num_wheels : ℚ) - 1)
  let c2_length := c2.wheel_base * ((c2.num_wheels : ℚ) - 1)
  let total_needed := c1_length + gap + c2_length
  if total_needed ≤ L then
    let bothAt := fun p1 : ℚ =>
      mkWheelsId 1 c1 p1 Pv1 Ph1 ++ mkWheelsId 2 c2 (p1 + c1_length + gap) Pv2 Ph2
    let maxM := bestMomentCase L (linspace 0 (L - total_needed) 30) bothAt
    let wV1 := mkWheelsId 1 c1 0 Pv1 Ph1 ++
      (if 0 + c1_length + gap + c2_length ≤ L then
        mkWheelsId 2 c2 (0 + c1_length + gap) Pv2 Ph2 else [])
    let vC1 := analyze_load L wV1
    let wV2 := mkWheelsId 2 c2 0 Pv2 Ph2 ++
      (if 0 + c2_length + gap + c1_length ≤ L then
        mkWheelsId 1 c1 (0 + c2_length + gap) Pv1 Ph1 else [])
    let vC2 := analyze_load L wV2
    let maxR := bestReactionCase L (linspace 0 (max 0 (L - total_needed)) 40)
      (fun p1 => decide (L < p1 + c1_length + gap + c2_length)) bothAt
    let heavy := if Pv1 < Pv2 then (c2, Pv2, Ph2, c2_length) else (c1, Pv1, Ph1, c1_length)
    let light := if Pv1 < Pv2 then (c1, Pv1, Ph1, c1_length) else (c2, Pv2, Ph2, c2_length)
    let wHeavy := mkWheelsId heavy.1.crane_id heavy.1 0 heavy.2.1 heavy.2.2.1 ++
      (if 0 + heavy.2.2.2 + gap + light.2.2.2 ≤ L then
        mkWheelsId light.1.crane_id light.1 (0 + heavy.2.2.2 + gap) light.2.1 light.2.2.1
       else [])
    let vHeavy := analyze_load L wHeavy
    (maxM.map (setDesc "2 cranes: max M")).toList ++
    (vC1.map (setDesc "2 cranes: max V, C1 at support")).toList ++
    (vC2.map (setDesc "2 cranes: max V, C2 at support")).toList ++
    (maxR.map (setDesc "2 cranes: max reaction")).toList ++
    (vHeavy.map (setDesc "2 cranes: max V, heavy at support")).toList
  else []

/-- Stable insertion of `x` into a list sorted descending by `key`
(`x` goes before the first strictly lighter element). -/
def insertDesc {α : Type} (key : α → ℚ) (x : α) : List α → List α
  | [] => [x]
  | y :: ys => if key y ≤ key x then x :: y :: ys else y :: insertDesc key x ys

/-- Python's stable `list.sort(key=..., reverse=True)`. -/
def sortByKeyDesc {α : Type} (key : α → ℚ) (l : List α) : List α :=
  l.foldr (insertDesc key) []

/-- The sequential placement loop of the three-crane max-shear case
(source lines 649-659): wheels are appended while they fall on the beam
(`wheel_pos <= L`), and the running position advances by crane length
plus the adjacent buffers. -/
def placeSequential (L : ℚ) : ℚ → List (CraneData × ℚ × ℚ × ℚ) → List WheelPos
  | _, [] => []
  | pos, (c, Pv, Ph, clen) :: rest =>
    ((List.range c.num_wheels).filterMap (fun (w : ℕ) =>
      let wp : ℚ := pos + (w : ℚ) * c.wheel_base
      if wp ≤ L then some ⟨c.crane_id, w + 1, wp, Pv, Ph⟩ else none)) ++
    (match rest with
     | [] => []
     | (c2, _, _, _) :: _ =>
       placeSequential L (pos + clen + c.buffer_right + c2.buffer_left) rest)

/-- The three-crane block of `find_critical` (source lines 607-664). -/
def threeCraneCases (L : ℚ) (c1 c2 c3 : CraneData) : List LoadCase :=
  let gap12 := c1.buffer_right + c2.buffer_left
  let gap23 := c2.buffer_right + c3.buffer_left
  let Pv1 := wheel_load_with_impact c1
  let Ph1 := lateral_per_wheel c1
  let Pv2 := wheel_load_with_impact c2
  let Ph2 := lateral_per_wheel c2
  let Pv3 := wheel_load_with_impact c3
  let Ph3 := lateral_per_wheel c3
  let c1_len := c1.wheel_base * ((c1.num_wheels : ℚ) - 1)
  let c2_len := c2.wheel_base * ((c2.num_wheels : ℚ) - 1)
  let c3_len := c3.wheel_base * ((c3.num_wheels : ℚ) - 1)
  let total_min := c1_len + gap12 + c2_len + gap23 + c3_len
  if total_min ≤ L then
    let allAt := fun p1 : ℚ =>
      mkWheelsId 1 c1 p1 Pv1 Ph1 ++
      mkWheelsId 2 c2 (p1 + c1_len + gap12) Pv2 Ph2 ++
      mkWheelsId 3 c3 (p1 + c1_len + gap12 + c2_len + gap23) Pv3 Ph3
    let maxM := bestMomentCase L (linspace 0 (L - total_min) 20) allAt
    let sorted := sortByKeyDesc (fun t => t.2.1)
      [(c1, Pv1, Ph1, c1_len), (c2, Pv2, Ph2, c2_len), (c3, Pv3, Ph3, c3_len)]
    let vHeavy := analyze_load L (placeSequential L 0 sorted)
    (maxM.map (setDesc "3 cranes: max M")).toList ++
    (vHeavy.map (setDesc "3 cranes: max V, heavy first")).toList
  else []

/-- `find_critical(L, cranes)` (source lines 445-666): all single-crane
cases in crane order, then two-crane cases for `cranes[0], cranes[1]`,
then three-crane cases for the first three cranes.  The
`cranes_by_load = sorted(...)` at line 457 is never read afterwards and
is omitted. -/
def find_critical (L : ℚ) (cranes : List CraneData) : List LoadCase :=
  (cranes.flatMap (singleCraneCases L)) ++
  (match cranes with
   | c1 :: c2 :: _ => twoCraneCases L c1 c2
   | _ => []) ++
  (match cranes with
   | c1 :: c2 :: c3 :: _ => threeCraneCases L c1 c2 c3
   | _ => [])

/-- The three governing cases returned by `get_governing` on a non-empty
case list. -/
structure Governing where
  moment : LoadCase
  shear : LoadCase
  reaction : LoadCase

/-- Python's `max(l, key=f)` on the non-empty list `a :: l`: the first
element attaining the maximum key (a later element replaces the current
best only on a strictly larger key). -/
def pyMaxBy (key : LoadCase → ℚ) (a : LoadCase) (l : List LoadCase) : LoadCase :=
  l.foldl (fun acc y => if key acc < key y then y else acc) a

/-- `get_governing(results)` (source lines 669-676).  The empty Python
dict returned for an empty case list is modelled as `none`. -/
def get_governing (results : List LoadCase) : Option Governing :=
  match results with
  | [] => none
  | r :: rs =>
    some ⟨pyMaxBy (fun c => |c.M_max|) r rs,
          pyMaxBy (fun c => c.V_max) r rs,
          pyMaxBy (fun c => max c.R_left c.R_right) r rs⟩

/-- The `Section` dataclass (source lines 344-374) with the Python field
defaults.  Geometry and derived properties are `ℝ` because `calc_props`
and the capacity checks use `math.sqrt`. -/
structure Section where
  name : String := "Custom"
  sec_type : String := "built_up"
  d : ℝ := 0
  bf_top : ℝ := 0
  tf_top : ℝ := 0
  bf_bot : ℝ := 0
  tf_bot : ℝ := 0
  tw : ℝ := 0
  hw : ℝ := 0
  has_cap : Bool := false
  cap_name : String := ""
  cap_A : ℝ := 0
  cap_Iy : ℝ := 0
  cap_d : ℝ := 0
  cap_cy : ℝ := 0
  A : ℝ := 0
  Ix : ℝ := 0
  Iy : ℝ := 0
  Sx : ℝ := 0
  Sy : ℝ := 0
  Zx : ℝ := 0
  rx : ℝ := 0
  ry : ℝ := 0
  rts : ℝ := 0
  J : ℝ := 0
  Cw : ℝ := 0
  ho : ℝ := 0
  y_bar : ℝ := 0
  mass : ℝ := 0

/-- `Section.calc_props` (source lines 376-418): recomputes every derived
property from the plate geometry (and the optional cap channel) and
returns the updated section. -/
noncomputable def calc_props (s : Section) : Section :=
  let A_tf := s.bf_top * s.tf_top
  let A_bf := s.bf_bot * s.tf_bot
  let A_w := s.hw * s.tw
  let A_I := A_tf + A_bf + A_w
  let y_tf := s.tf_bot + s.hw + s.tf_top / 2
  let y_bf := s.tf_bot / 2
  let y_w := s.tf_bot + s.hw / 2
  let withCap := s.has_cap = true ∧ 0 < s.cap_A
  let A' := if withCap then A_I + s.cap_A else A_I
  let y_bar' :=
    if withCap then
      (A_tf * y_tf + A_bf * y_bf + A_w * y_w + s.cap_A * (s.d + s.cap_cy)) / A'
    else (A_tf * y_tf + A_bf * y_bf + A_w * y_w) / max A_I 1
  let ho' := s.d - (s.tf_top + s.tf_bot) / 2
  let I_tf := s.bf_top * s.tf_top ^ 3 / 12 + A_tf * (y_tf - y_bar') ^ 2
  let I_bf := s.bf_bot * s.tf_bot ^ 3 / 12 + A_bf * (y_bf - y_bar') ^ 2
  let I_w := s.tw * s.hw ^ 3 / 12 + A_w * (y_w - y_bar') ^ 2
  let Ix' :=
    if withCap then
      I_tf + I_bf + I_w + (s.cap_Iy + s.cap_A * (s.d + s.cap_cy - y_bar') ^ 2)
    else I_tf + I_bf + I_w
  let Iy' := s.tf_top * s.bf_top ^ 3 / 12 + s.tf_bot * s.bf_bot ^ 3 / 12 +
    s.hw * s.tw ^ 3 / 12
  let c_top := (if s.has_cap then s.d + s.cap_d else s.d) - y_bar'
  let Sx' := Ix' / max c_top 1
  let Sy' := Iy' / max (max (s.bf_top / 2) (s.bf_bot / 2)) 1
  let rx' := Real.sqrt (Ix' / max A' 1)
  let ry' := Real.sqrt (Iy' / max A' 1)
  let Zx' := Sx' * 1.12
  let J' := s.bf_top * s.tf_top ^ 3 / 3 + s.bf_bot * s.tf_bot ^ 3 / 3 +
    s.hw * s.tw ^ 3 / 3
  let Cw' := if 0 < ho' then Iy' * ho' ^ 2 / 4 else 1
  let rts' := Real.sqrt (Real.sqrt (Iy' * Cw') / max Sx' 1)
  let mass' := A' * 7850 / 1e6 + (if s.has_cap then s.cap_A * 7850 / 1e6 else 0)
  { s with A := A', Ix := Ix', Iy := Iy', Sx := Sx', Sy := Sy', Zx := Zx',
           rx := rx', ry := ry', rts := rts', J := J', Cw := Cw', ho := ho',
           y_bar := y_bar', mass := mass' }

/-- Three-way slenderness classification used by `check_compact`. -/
inductive SlenderClass where
  | Compact
  | Noncompact
  | Slender
  deriving DecidableEq

/-- The dict returned by `check_compact`. -/
structure CompactResult where
  flg : SlenderClass
  web : SlenderClass
  lf : ℝ
  lpf : ℝ
  lrf : ℝ
  lw : ℝ
  lpw : ℝ
  lrw : ℝ

/-- `check_compact(sec, Fy)` (source lines 679-688). -/
noncomputable def check_compact (sec : Section) (Fy : ℝ) : CompactResult :=
  let lf := sec.bf_top / max (2 * sec.tf_top) 1
  let lpf := 0.38 * Real.sqrt (E_STEEL / Fy)
  let lrf := 1.0 * Real.sqrt (E_STEEL / Fy)
  let flg := if lf ≤ lpf then SlenderClass.Compact
             else if lf ≤ lrf then SlenderClass.Noncompact
             else SlenderClass.Slender
  let lw := sec.hw / max sec.tw 1
  let lpw := 3.76 * Real.sqrt (E_STEEL / Fy)
  let lrw := 5.70 * Real.sqrt (E_STEEL / Fy)
  let web := if lw ≤ lpw then SlenderClass.Compact
             else if lw ≤ lrw then SlenderClass.Noncompact
             else SlenderClass.Slender
  ⟨flg, web, lf, lpf, lrf, lw, lpw, lrw⟩

/-- The numeric content of the nested result dict returned by
`calc_plate_girder_shear_detailed` (code-reference strings omitted). -/
structure ShearDetailed where
  kv : ℝ
  has_stiffeners : Bool
  Cv1 : ℝ
  Vn_no_tfa : ℝ
  tfa_applicable : Bool
  Vn_tfa : ℝ
  Vn : ℝ
  Omega_v : ℝ
  Va : ℝ

/-- `calc_plate_girder_shear_detailed(sec, Fy, stiff_spacing, end_panel)`
(source lines 1086-1218).  `stiff_spacing=None` or a non-positive spacing
means no stiffeners (`kv = 5.34`); tension-field action needs stiffeners,
`a/h <= 3`, `a/h <= (260/(h/tw))**2` and an interior panel, and otherwise
`Vn2` stays at the no-TFA value `Vn1`, which then governs. -/
noncomputable def calc_plate_girder_shear_detailed (sec : Section) (Fy : ℝ)
    (stiff_spacing : Option ℝ) (end_panel : Bool) : ShearDetailed :=
  let Aw := sec.hw * sec.tw
  let h_tw := sec.hw / sec.tw
  let stifAH : Option ℝ :=
    match stiff_spacing with
    | none => none
    | some a => if a ≤ 0 then none else some (a / sec.hw)
  let kv : ℝ :=
    match stifAH with
    | none => 5.34
    | some a_h => if a_h ≤ 3 then 5 + 5 / a_h ^ 2 else 5.34
  let limit1 := 1.10 * Real.sqrt (kv * E_STEEL / Fy)
  let limit2 := 1.37 * Real.sqrt (kv * E_STEEL / Fy)
  let Cv1 := if h_tw ≤ limit1 then 1
             else if h_tw ≤ limit2 then limit1 / h_tw
             else 1.51 * kv * E_STEEL / (h_tw ^ 2 * Fy)
  let Vn1 := 0.6 * Fy * Aw * Cv1 / 1000
  let tfaVn : Option ℝ :=
    match stifAH with
    | none => none
    | some a_h =>
      if a_h ≤ 3 ∧ a_h ≤ (260 / h_tw) ^ 2 ∧ end_panel = false then
        let Cv2 := if h_tw ≤ limit1 then (1 : ℝ) else limit1 / h_tw
        some (0.6 * Fy * Aw *
          (Cv2 + (1 - Cv2) / (1.15 * Real.sqrt (1 + a_h ^ 2))) / 1000)
      else none
  let tfa_applicable := tfaVn.isSome
  let Vn2 := tfaVn.getD Vn1
  let Vn := if tfa_applicable then Vn2 else Vn1
  let Omega := if tfa_applicable then (1.67 : ℝ) else 1.50
  ⟨kv, stifAH.isSome, Cv1, Vn1, tfa_applicable, Vn2, Vn, Omega, Vn / Omega⟩

/-- `calc_Vn_plate_girder(sec, Fy, has_stiff, stiff_spa, use_tfa)`
(source lines 1416-1472); returns `(Vn, Cv1)`. -/
noncomputable def calc_Vn_plate_girder (sec : Section) (Fy : ℝ)
    (has_stiff : Bool) (stiff_spa : ℝ) (use_tfa : Bool) : ℝ × ℝ :=
  let Aw := sec.hw * sec.tw
  let h_tw := sec.hw / max sec.tw 1
  let kv : ℝ :=
    if has_stiff = true ∧ 0 < stiff_spa ∧ 0 < sec.hw then
      (if stiff_spa / sec.hw ≤ 3 then 5 + 5 / (stiff_spa / sec.hw) ^ 2 else 5.34)
    else 5.34
  let limit_1 := 1.10 * Real.sqrt (kv * E_STEEL / Fy)
  let limit_2 := 1.37 * Real.sqrt (kv * E_STEEL / Fy)
  let Cv1 := if h_tw ≤ limit_1 then 1
             else if h_tw ≤ limit_2 then limit_1 / h_tw
             else 1.51 * kv * E_STEEL / (h_tw ^ 2 * Fy)
  let Vn1 := 0.6 * Fy * Aw * Cv1 / 1000
  let Vn :=
    if use_tfa = true ∧ has_stiff = true ∧ 0 < stiff_spa ∧ Cv1 < 1 then
      let a_h := stiff_spa / sec.hw
      if a_h ≤ 3 ∧ 0.5 ≤ a_h then
        let Cv2 := if h_tw ≤ limit_1 then (1 : ℝ) else limit_1 / h_tw
        max Vn1 (0.6 * Fy * Aw *
          (Cv2 + (1 - Cv2) / (1.15 * Real.sqrt (1 + a_h ^ 2))) / 1000)
      else Vn1
    else Vn1
  (Vn, Cv1)

/-- The six AISC fatigue categories of the `FATIGUE_CATS` table
(source lines 61-74). -/
inductive FatigueCat where
  | A
  | B
  | C
  | D
  | E
  | F
  deriving DecidableEq

/-- The `Cf` fatigue constant of each category. -/
def fatigueCf : FatigueCat → ℝ
  | .A => 250e8
  | .B => 120e8
  | .C => 44e8
  | .D => 22e8
  | .E => 11e8
  | .F => 150e8

/-- The threshold stress range (MPa) of each category. -/
def fatigueThresh : FatigueCat → ℝ
  | .A => 165
  | .B => 110
  | .C => 69
  | .D => 48
  | .E => 31
  | .F => 55

/-- The dict returned by `check_fatigue`. -/
structure FatigueResult where
  sr : ℝ
  Fsr : ℝ
  ratio : ℝ

/-- `check_fatigue(sec, M, N, cat)` (source lines 1748-1754).  The `cat`
string (with its fallback to `'E'` for unknown keys) is modelled by the
`FatigueCat` enumeration of the valid keys. -/
noncomputable def check_fatigue (sec : Section) (M N : ℝ) (cat : FatigueCat) :
    FatigueResult :=
  if sec.Sx ≤ 0 then ⟨0, 999, 0⟩
  else
    let sr := M * 1e6 / sec.Sx
    let Fsr := max (fatigueThresh cat) ((fatigueCf cat / max N 1) ^ ((1 : ℝ) / 3))
    ⟨sr, Fsr, sr / max Fsr 1⟩

/-- `calc_actual_deflection(sec, wheel_loads, L, wheel_base)`
(source lines 1328-1393): for exactly two wheels, places the pair so the
resultant is at midspan (clamped to the beam) and superposes the two
midspan point-load deflections; any other wheel count falls back to a
single midspan point load.  Returns mm. -/
noncomputable def calc_actual_deflection (sec : Section) (wheel_loads : List ℝ)
    (L wheel_base : ℝ) : ℝ :=
  let E := E_STEEL
  let I := sec.Ix
  let L_mm := L * 1000
  let wb_mm := wheel_base * 1000
  let P := wheel_loads.sum
  if wheel_loads.length = 2 then
    let P1 := wheel_loads.getD 0 0
    let P2 := wheel_loads.getD 1 0
    let x_resultant := if 0 < P then P2 * wb_mm / P else wb_mm / 2
    let x1_opt := max 0 (min (L_mm / 2 - x_resultant) (L_mm - wb_mm))
    let x2_opt := x1_opt + wb_mm
    let deflection_at_point := fun (x_load x_point P_load : ℝ) =>
      let a := x_load
      let b := L_mm - x_load
      let x := x_point
      (if x ≤ a then P_load * b * x * (L_mm ^ 2 - b ^ 2 - x ^ 2) / (6 * E * I * L_mm)
       else P_load * a * (L_mm - x) * (L_mm ^ 2 - a ^ 2 - (L_mm - x) ^ 2) /
         (6 * E * I * L_mm)) * 1000
    let delta1 := deflection_at_point x1_opt (L_mm / 2) (P1 * 1000)
    let delta2 := deflection_at_point x2_opt (L_mm / 2) (P2 * 1000)
    |delta1 + delta2|
  else |P * 1000 * L_mm ^ 3 / (48 * E * I) * 1000|

/-! ### Theorems -/

/-- `analyze_load` on a non-empty wheel list returns `some` case whose
reactions are `R_r = ΣP·x / max(L, 0.1)` and `R_l = ΣP − R_r`. -/
lemma analyze_load_cons (L : ℚ) (w : WheelPos) (ws : List WheelPos) :
    ∃ c, analyze_load L (w :: ws) = some c ∧
      c.R_right = ((w :: ws).map (fun u => u.Pv * u.pos)).sum / max L 0.1 ∧
      c.R_left = ((w :: ws).map (fun u => u.Pv)).sum - c.R_right := by
  refine ⟨_, rfl, rfl, rfl⟩

/-- C1: for every span `L` and non-empty wheel list, the `LoadCase`
returned by `analyze_load` satisfies static equilibrium:
`R_left + R_right` equals the sum of the wheels' vertical loads (exactly,
since the code sets `R_left = sum(P) - R_right`). -/
theorem analyze_load_equilibrium (L : ℚ) (wheels : List WheelPos)
    (h : wheels ≠ []) :
    ∃ c, analyze_load L wheels = some c ∧
      c.R_left + c.R_right = (wheels.map (fun u => u.Pv)).sum := by
  obtain ⟨w, ws, rfl⟩ : ∃ w ws, wheels = w :: ws := by
    cases wheels with
    | nil => exact absurd rfl h
    | cons w ws => exact ⟨w, ws, rfl⟩
  obtain ⟨c, hc, hr, hl⟩ := analyze_load_cons L w ws
  exact ⟨c, hc, by rw [hl]; ring⟩

/-- Closed instance of C1: one 5 kN wheel at 2 m on a 4 m span. -/
theorem analyze_load_equilibrium_witness :
    ([(⟨1, 1, 2, 5, 0⟩ : WheelPos)] ≠ []) ∧
    ∃ c, analyze_load 4 [⟨1, 1, 2, 5, 0⟩] = some c ∧
      c.R_left + c.R_right = (([(⟨1, 1, 2, 5, 0⟩ : WheelPos)]).map
        (fun u => u.Pv)).sum :=
  ⟨by decide, analyze_load_equilibrium 4 [⟨1, 1, 2, 5, 0⟩] (by decide)⟩

/-- C2 (amended): for every span `L ≥ 0.1` and non-empty wheel list,
`analyze_load` computes `R_right = (Σ Pv·pos) / L` and
`R_left = Σ Pv − R_right`.  (For `0 < L < 0.1` the code divides by the
floor value `0.1` instead of `L`; see the counterexample.) -/
theorem analyze_load_reactions (L : ℚ) (wheels : List WheelPos)
    (hL : 0.1 ≤ L) (h : wheels ≠ []) :
    ∃ c, analyze_load L wheels = some c ∧
      c.R_right = (wheels.map (fun u => u.Pv * u.pos)).sum / L ∧
      c.R_left = (wheels.map (fun u => u.Pv)).sum -
        (wheels.map (fun u => u.Pv * u.pos)).sum / L := by
  obtain ⟨w, ws, rfl⟩ : ∃ w ws, wheels = w :: ws := by
    cases wheels with
    | nil => exact absurd rfl h
    | cons w ws => exact ⟨w, ws, rfl⟩
  obtain ⟨c, hc, hr, hl⟩ := analyze_load_cons L w ws
  rw [max_eq_left hL] at hr
  exact ⟨c, hc, hr, by rw [hl, hr]⟩

/-- Closed instance of the amended C2: one 1 kN wheel at 1 m on a 2 m
span gives `R_right = 1·1/2` and `R_left = 1 − 1·1/2`. -/
theorem analyze_load_reactions_witness :
    ((0.1 : ℚ) ≤ 2) ∧ ([(⟨1, 1, 1, 1, 0⟩ : WheelPos)] ≠ []) ∧
    ∃ c, analyze_load 2 [⟨1, 1, 1, 1, 0⟩] = some c ∧
      c.R_right = (([(⟨1, 1, 1, 1, 0⟩ : WheelPos)]).map
        (fun u => u.Pv * u.pos)).sum / 2 ∧
      c.R_left = (([(⟨1, 1, 1, 1, 0⟩ : WheelPos)]).map (fun u => u.Pv)).sum -
        (([(⟨1, 1, 1, 1, 0⟩ : WheelPos)]).map (fun u => u.Pv * u.pos)).sum / 2 :=
  ⟨by norm_num, by decide,
    analyze_load_reactions 2 [⟨1, 1, 1, 1, 0⟩] (by norm_num) (by decide)⟩

/-- C2 counterexample: the claim "for every span `L > 0` the right
reaction equals `(Σ Pv·pos)/L`" is false.  At `L = 1/20` (below the
code's `max(L, 0.1)` floor) a unit wheel at the right support yields
`R_right = 1/2`, not `(1·(1/20))/(1/20) = 1`. -/
theorem analyze_load_reactions_counterexample :
    ¬ (∀ (L : ℚ), 0 < L → ∀ (wheels : List WheelPos), wheels ≠ [] →
        ∀ c, analyze_load L wheels = some c →
          c.R_right = (wheels.map (fun u => u.Pv * u.pos)).sum / L) := by
  intro hclaim
  obtain ⟨c, hc, hr, -⟩ := analyze_load_cons (1/20) ⟨1, 1, 1/20, 1, 0⟩ []
  have h1 : c.R_right = 1/2 := by rw [hr]; norm_num [max_eq_right]
  have h2 : c.R_right = 1 := by
    have := hclaim (1/20) (by norm_num) [⟨1, 1, 1/20, 1, 0⟩] (by decide) c hc
    rw [this]; norm_num
  rw [h1] at h2
  norm_num at h2

/-- The crane of spec Scenario 1: capacity 10 t, bridge weight 5 t,
trolley 0.72 t, bridge span 20 m, minimum hook approach 1 m, wheel base
2.2 m, 2 wheels per rail, geometry mode (all other fields are the Python
dataclass defaults). -/
def scenarioCrane : CraneData := { bridge_span := 20 }

/-- C4: for the Scenario-1 crane, `calc_wheel_loads` sets
`R_max = P_bridge/2 + (P_lift + P_trolley)·(20−1)/20` with
`P_lift = 10·9.81`, `P_trolley = 0.72·9.81`, `P_bridge = 5·9.81` (kN);
numerically `R_max = 124.43004` kN. -/
theorem calc_wheel_loads_scenario1 :
    (calc_wheel_loads scenarioCrane).R_max =
      5 * 9.81 / 2 + (10 * 9.81 + 0.72 * 9.81) * (20 - 1) / 20 ∧
    (calc_wheel_loads scenarioCrane).R_max = 124.43004 := by
  constructor <;> norm_num [calc_wheel_loads, scenarioCrane, GRAVITY]

/-- `g` is the first-listed element of `l` maximizing `key`: it is a
maximizer and every element listed before it has a strictly smaller key
(ties broken by list order, first-seen wins). -/
def isFirstMaxBy (key : LoadCase → ℚ) (l : List LoadCase) (g : LoadCase) : Prop :=
  (∀ y ∈ l, key y ≤ key g) ∧
  ∃ pre post, l = pre ++ g :: post ∧ ∀ y ∈ pre, key y < key g

/-- Characterization of the `max(..., key=...)` fold: the result
dominates the initial element and every listed element, and is either the
initial element or a listed element strictly greater than the initial one
that strictly dominates everything before it. -/
lemma pyMaxBy_spec (key : LoadCase → ℚ) (l : List LoadCase) (a : LoadCase) :
    key a ≤ key (pyMaxBy key a l) ∧
    (∀ y ∈ l, key y ≤ key (pyMaxBy key a l)) ∧
    (pyMaxBy key a l = a ∨
      ∃ pre post, l = pre ++ pyMaxBy key a l :: post ∧
        key a < key (pyMaxBy key a l) ∧
        ∀ y ∈ pre, key y < key (pyMaxBy key a l)) := by
  induction l generalizing a with
  | nil => simp [pyMaxBy]
  | cons x xs ih =>
    have hstep : pyMaxBy key a (x :: xs) =
        pyMaxBy key (if key a < key x then x else a) xs := rfl
    by_cases hx : key a < key x
    · rw [hstep, if_pos hx]
      obtain ⟨h1, h2, h3⟩ := ih x
      refine ⟨le_trans (le_of_lt hx) h1, ?_, ?_⟩
      · intro y hy
        rcases List.mem_cons.mp hy with rfl | hy
        · exact h1
        · exact h2 y hy
      · rcases h3 with heq | ⟨pre, post, hl, hlt, hpre⟩
        · right
          refine ⟨[], xs, by rw [heq]; rfl, by rw [heq]; exact hx, by simp⟩
        · right
          refine ⟨x :: pre, post, by rw [List.cons_append, ← hl], lt_trans hx hlt, ?_⟩
          intro y hy
          rcases List.mem_cons.mp hy with rfl | hy
          · exact hlt
          · exact hpre y hy
    · rw [hstep, if_neg hx]
      push_neg at hx
      obtain ⟨h1, h2, h3⟩ := ih a
      refine ⟨h1, ?_, ?_⟩
      · intro y hy
        rcases List.mem_cons.mp hy with rfl | hy
        · exact le_trans hx h1
        · exact h2 y hy
      · rcases h3 with heq | ⟨pre, post, hl, hlt, hpre⟩
        · left; exact heq
        · right
          refine ⟨x :: pre, post, by rw [List.cons_append, ← hl], hlt, ?_⟩
          intro y hy
          rcases List.mem_cons.mp hy with rfl | hy
          · exact lt_of_le_of_lt hx hlt
          · exact hpre y hy

/-- On `r :: rs`, Python's `max` with key returns the first-listed
maximizer. -/
lemma pyMaxBy_isFirstMaxBy (key : LoadCase → ℚ) (r : LoadCase)
    (rs : List LoadCase) : isFirstMaxBy key (r :: rs) (pyMaxBy key r rs) := by
  obtain ⟨h1, h2, h3⟩ := pyMaxBy_spec key rs r
  constructor
  · intro y hy
    rcases List.mem_cons.mp hy with rfl | hy
    · exact h1
    · exact h2 y hy
  · rcases h3 with heq | ⟨pre, post, hl, hlt, hpre⟩
    · exact ⟨[], rs, by rw [heq]; rfl, by simp⟩
    · refine ⟨r :: pre, post, by rw [List.cons_append, ← hl], ?_⟩
      intro y hy
      rcases List.mem_cons.mp hy with rfl | hy
      · exact hlt
      · exact hpre y hy

/-- C8: `get_governing` on an empty case list returns the empty mapping
(modelled `none`) rather than raising; on a non-empty list it returns,
per demand type, the first-listed case maximizing `|M_max|` (moment),
`V_max` (shear) and `max(R_left, R_right)` (reaction), ties broken by
list order. -/
theorem get_governing_spec :
    get_governing [] = none ∧
    ∀ (l : List LoadCase), l ≠ [] →
      ∃ g : Governing, get_governing l = some g ∧
        isFirstMaxBy (fun c => |c.M_max|) l g.moment ∧
        isFirstMaxBy (fun c => c.V_max) l g.shear ∧
        isFirstMaxBy (fun c => max c.R_left c.R_right) l g.reaction := by
  refine ⟨rfl, ?_⟩
  intro l hl
  obtain ⟨r, rs, rfl⟩ : ∃ r rs, l = r :: rs := by
    cases l with
    | nil => exact absurd rfl hl
    | cons r rs => exact ⟨r, rs, rfl⟩
  exact ⟨_, rfl, pyMaxBy_isFirstMaxBy _ r rs, pyMaxBy_isFirstMaxBy _ r rs,
    pyMaxBy_isFirstMaxBy _ r rs⟩

/-- Two concrete load cases for the C8 witness: the second has the larger
`|M_max|` and reaction, the first the larger shear. -/
def gcase1 : LoadCase := ⟨"case1", [], 5, 1, 3, 0, 1, 2, [], [], []⟩

/-- Second concrete load case for the C8 witness. -/
def gcase2 : LoadCase := ⟨"case2", [], -7, 2, 2, 0, 4, 0, [], [], []⟩

/-- Closed instance of C8 on the two-case list `[gcase1, gcase2]`. -/
theorem get_governing_spec_witness :
    ([gcase1, gcase2] ≠ []) ∧
    ∃ g : Governing, get_governing [gcase1, gcase2] = some g ∧
      isFirstMaxBy (fun c => |c.M_max|) [gcase1, gcase2] g.moment ∧
      isFirstMaxBy (fun c => c.V_max) [gcase1, gcase2] g.shear ∧
      isFirstMaxBy (fun c => max c.R_left c.R_right) [gcase1, gcase2] g.reaction :=
  ⟨by simp, get_governing_spec.2 [gcase1, gcase2] (by simp)⟩

/-- `analyze_load` returns a case whenever the wheel list is non-empty. -/
lemma analyze_load_eq_some (L : ℚ) (wheels : List WheelPos)
    (h : wheels ≠ []) : ∃ c, analyze_load L wheels = some c := by
  cases wheels with
  | nil => exact absurd rfl h
  | cons w ws => exact ⟨_, rfl⟩

/-- A crane with at least one wheel produces a non-empty wheel group. -/
lemma craneWheels_ne_nil (c : CraneData) (hw : 1 ≤ c.num_wheels)
    (pos Pv Ph : ℚ) : craneWheels c pos Pv Ph ≠ [] := by
  simp only [craneWheels, mkWheelsId, ne_eq, List.map_eq_nil_iff,
    List.range_eq_nil]
  omega

/-- A crane that fits on the span and has at least one wheel always
contributes its single-crane cases (at least the two max-shear cases). -/
lemma singleCraneCases_ne_nil (L : ℚ) (c : CraneData)
    (hfit : c.wheel_base * ((c.num_wheels : ℚ) - 1) ≤ L)
    (hw : 1 ≤ c.num_wheels) : singleCraneCases L c ≠ [] := by
  simp only [singleCraneCases]
  rw [if_neg (not_lt.mpr hfit)]
  obtain ⟨d, hd⟩ := analyze_load_eq_some L
    (craneWheels c 0 (wheel_load_with_impact c) (lateral_per_wheel c))
    (craneWheels_ne_nil c hw 0 _ _)
  intro hEq
  rw [List.append_eq_nil, List.append_eq_nil] at hEq
  exact absurd hEq.1.2 (by simp [hd])

/-- C7: two cranes that each individually fit on the span
(`wheel_base·(num_wheels−1) ≤ L`) but whose combined minimum length
`c1_length + (buffer_right₁ + buffer_left₂) + c2_length` exceeds `L`
produce no two-crane cases — `find_critical` silently returns exactly the
single-crane cases of each crane (no error), and each crane's
single-crane cases are present.  (`1 ≤ num_wheels` is implied by the
data-model invariant `num_wheels ≥ 2`.) -/
theorem find_critical_infeasible_pair (L : ℚ) (c1 c2 : CraneData)
    (h1 : c1.wheel_base * ((c1.num_wheels : ℚ) - 1) ≤ L)
    (h2 : c2.wheel_base * ((c2.num_wheels : ℚ) - 1) ≤ L)
    (hw1 : 1 ≤ c1.num_wheels) (hw2 : 1 ≤ c2.num_wheels)
    (hinf : L < c1.wheel_base * ((c1.num_wheels : ℚ) - 1) +
      (c1.buffer_right + c2.buffer_left) +
      c2.wheel_base * ((c2.num_wheels : ℚ) - 1)) :
    find_critical L [c1, c2] =
      singleCraneCases L c1 ++ singleCraneCases L c2 ∧
    twoCraneCases L c1 c2 = [] ∧
    singleCraneCases L c1 ≠ [] ∧ singleCraneCases L c2 ≠ [] := by
  have htwo : twoCraneCases L c1 c2 = [] := by
    simp only [twoCraneCases]
    rw [if_neg (not_le.mpr hinf)]
  refine ⟨?_, htwo, singleCraneCases_ne_nil L c1 h1 hw1,
    singleCraneCases_ne_nil L c2 h2 hw2⟩
  simp [find_critical, htwo]

/-- A crane with all the Python dataclass defaults (wheel base 2.2 m,
2 wheels, buffers 0.29 m). -/
def defaultCrane : CraneData := {}

/-- Closed instance of C7: two default cranes (length 2.2 m each,
buffers 0.29 m) on a 4.5 m span: each fits alone, the pair needs 4.98 m. -/
theorem find_critical_infeasible_pair_witness :
    (defaultCrane.wheel_base * ((defaultCrane.num_wheels : ℚ) - 1) ≤ 4.5) ∧
    (1 ≤ defaultCrane.num_wheels) ∧
    (4.5 < defaultCrane.wheel_base * ((defaultCrane.num_wheels : ℚ) - 1) +
      (defaultCrane.buffer_right + defaultCrane.buffer_left) +
      defaultCrane.wheel_base * ((defaultCrane.num_wheels : ℚ) - 1)) ∧
    (find_critical 4.5 [defaultCrane, defaultCrane] =
      singleCraneCases 4.5 defaultCrane ++ singleCraneCases 4.5 defaultCrane ∧
    twoCraneCases 4.5 defaultCrane defaultCrane = [] ∧
    singleCraneCases 4.5 defaultCrane ≠ [] ∧
    singleCraneCases 4.5 defaultCrane ≠ []) :=
  ⟨by norm_num [defaultCrane], by norm_num [defaultCrane],
   by norm_num [defaultCrane],
   find_critical_infeasible_pair 4.5 defaultCrane defaultCrane
     (by norm_num [defaultCrane]) (by norm_num [defaultCrane])
     (by norm_num [defaultCrane]) (by norm_num [defaultCrane])
     (by norm_num [defaultCrane])⟩

/-- C10: for every section geometry (built-up or with cap channel), the
plastic section modulus derived by `calc_props` is exactly the fixed
multiple `Zx = 1.12 · Sx` of the elastic modulus (the code sets
`self.Zx = self.Sx * 1.12` and never computes a plastic neutral axis). -/
theorem calc_props_Zx (s : Section) :
    (calc_props s).Zx = 1.12 * (calc_props s).Sx := by
  simp only [calc_props]
  ring

/-- C5: with `stiff_spacing=None` the governing nominal shear strength of
`calc_plate_girder_shear_detailed` is the no-tension-field-action value
`Vn = 0.6·Fy·Aw·Cv1` (with `kv = 5.34`), written out below with the
`Cv1` piecewise formula; it is independent of the `end_panel` flag and
equals the function's own no-TFA value; likewise `calc_Vn_plate_girder`
with `has_stiff=False` returns the same `Vn` whether or not `use_tfa` is
set, and that value is the no-TFA `Vn`. -/
theorem shear_no_stiffeners_no_tfa (sec : Section) (Fy : ℝ)
    (ep ep' : Bool) (spa : ℝ) (tfa : Bool) :
    (calc_plate_girder_shear_detailed sec Fy none ep).Vn =
      0.6 * Fy * (sec.hw * sec.tw) *
        (if sec.hw / sec.tw ≤ 1.10 * Real.sqrt (5.34 * E_STEEL / Fy) then 1
         else if sec.hw / sec.tw ≤ 1.37 * Real.sqrt (5.34 * E_STEEL / Fy) then
           1.10 * Real.sqrt (5.34 * E_STEEL / Fy) / (sec.hw / sec.tw)
         else 1.51 * 5.34 * E_STEEL / ((sec.hw / sec.tw) ^ 2 * Fy)) / 1000 ∧
    (calc_plate_girder_shear_detailed sec Fy none ep).kv = 5.34 ∧
    (calc_plate_girder_shear_detailed sec Fy none ep).tfa_applicable = false ∧
    (calc_plate_girder_shear_detailed sec Fy none ep).Vn =
      (calc_plate_girder_shear_detailed sec Fy none ep).Vn_no_tfa ∧
    (calc_plate_girder_shear_detailed sec Fy none ep).Vn =
      (calc_plate_girder_shear_detailed sec Fy none ep').Vn ∧
    (calc_Vn_plate_girder sec Fy false spa tfa).1 =
      (calc_Vn_plate_girder sec Fy false spa false).1 ∧
    (calc_Vn_plate_girder sec Fy false spa tfa).1 =
      0.6 * Fy * (sec.hw * sec.tw) *
        (calc_Vn_plate_girder sec Fy false spa tfa).2 / 1000 := by
  refine ⟨?_, rfl, rfl, rfl, rfl, ?_, ?_⟩
  · simp [calc_plate_girder_shear_detailed]
  · simp only [calc_Vn_plate_girder]
    norm_num
  · simp only [calc_Vn_plate_girder]
    norm_num

/-- With `Fy = 2000` the slenderness limits are rational:
`sqrt(E/Fy) = sqrt(100) = 10`. -/
lemma sqrt_E_over_2000 : Real.sqrt (E_STEEL / 2000) = 10 := by
  rw [show E_STEEL / 2000 = (100 : ℝ) by norm_num [E_STEEL],
    show (100 : ℝ) = 10 ^ 2 by norm_num,
    Real.sqrt_sq (by norm_num : (0 : ℝ) ≤ 10)]

/-- C3 (amended): web classification in `check_compact` for `Fy > 0`:
`h/tw ≤ 3.76·sqrt(E/Fy)` classifies Compact (so strictly below the lower
limit and exactly at it are both Compact — the lower boundary is
inclusive to Compact, not Noncompact); strictly between the limits and
exactly at `5.70·sqrt(E/Fy)` classifies Noncompact; strictly above
classifies Slender; and the two limits are distinct. -/
theorem check_compact_web_boundaries (sec : Section) (Fy : ℝ) (hFy : 0 < Fy) :
    ((check_compact sec Fy).lw ≤ (check_compact sec Fy).lpw →
      (check_compact sec Fy).web = SlenderClass.Compact) ∧
    ((check_compact sec Fy).lpw < (check_compact sec Fy).lw →
      (check_compact sec Fy).lw ≤ (check_compact sec Fy).lrw →
      (check_compact sec Fy).web = SlenderClass.Noncompact) ∧
    ((check_compact sec Fy).lrw < (check_compact sec Fy).lw →
      (check_compact sec Fy).web = SlenderClass.Slender) ∧
    (check_compact sec Fy).lpw < (check_compact sec Fy).lrw := by
  have hE : (0 : ℝ) < E_STEEL := by norm_num [E_STEEL]
  have hs : 0 < Real.sqrt (E_STEEL / Fy) := Real.sqrt_pos.mpr (by positivity)
  simp only [check_compact]
  have hlims : (3.76 : ℝ) * Real.sqrt (E_STEEL / Fy) <
      5.70 * Real.sqrt (E_STEEL / Fy) := by nlinarith
  refine ⟨?_, ?_, ?_, hlims⟩
  · intro h
    rw [if_pos h]
  · intro h1 h2
    rw [if_neg (not_le.mpr h1), if_pos h2]
  · intro h
    rw [if_neg (not_le.mpr (lt_trans hlims h)), if_neg (not_le.mpr h)]

/-- A section whose web ratio sits exactly at the lower (compact)
boundary for `Fy = 2000`: `h/tw = 37.6 = 3.76·sqrt(E/2000)`. -/
def boundaryWebSection : Section := { hw := 37.6, tw := 1 }

/-- C3 counterexample: "at a boundary value the web classifies as
Noncompact" is false at the lower boundary — with `h/tw` exactly equal
to `3.76·sqrt(E/Fy)` the code classifies the web as Compact
(`lw <= lpw` is inclusive), not Noncompact. -/
theorem check_compact_boundary_counterexample :
    (check_compact boundaryWebSection 2000).lw =
      (check_compact boundaryWebSection 2000).lpw ∧
    (check_compact boundaryWebSection 2000).web = SlenderClass.Compact ∧
    SlenderClass.Compact ≠ SlenderClass.Noncompact := by
  refine ⟨?_, ?_, by decide⟩
  · simp only [check_compact, boundaryWebSection]
    rw [sqrt_E_over_2000]
    norm_num
  · simp only [check_compact, boundaryWebSection]
    rw [sqrt_E_over_2000]
    norm_num

/-- Web strictly below the compact limit for `Fy = 2000`. -/
def compactWebSection : Section := { hw := 10, tw := 1 }

/-- Web at the upper (noncompact/slender) boundary for `Fy = 2000`:
`h/tw = 57 = 5.70·sqrt(E/2000)`. -/
def noncompactWebSection : Section := { hw := 57, tw := 1 }

/-- Web strictly above the slender limit for `Fy = 2000`. -/
def slenderWebSection : Section := { hw := 100, tw := 1 }

/-- Closed instance of the amended C3 at `Fy = 2000`:
`h/tw = 10 < 37.6` is Compact, `h/tw = 57` (the upper boundary) is
Noncompact, `h/tw = 100 > 57` is Slender. -/
theorem check_compact_web_boundaries_witness :
    ((0 : ℝ) < 2000) ∧
    (check_compact compactWebSection 2000).web = SlenderClass.Compact ∧
    (check_compact noncompactWebSection 2000).web = SlenderClass.Noncompact ∧
    (check_compact slenderWebSection 2000).web = SlenderClass.Slender :=
  ⟨by norm_num,
   (check_compact_web_boundaries compactWebSection 2000 (by norm_num)).1
     (by simp only [check_compact, compactWebSection]
         rw [sqrt_E_over_2000]; norm_num),
   (check_compact_web_boundaries noncompactWebSection 2000 (by norm_num)).2.1
     (by simp only [check_compact, noncompactWebSection]
         rw [sqrt_E_over_2000]; norm_num)
     (by simp only [check_compact, noncompactWebSection]
         rw [sqrt_E_over_2000]; norm_num),
   (check_compact_web_boundaries slenderWebSection 2000 (by norm_num)).2.2.1
     (by simp only [check_compact, slenderWebSection]
         rw [sqrt_E_over_2000]; norm_num)⟩

/-- The category-E cycles-dependent allowable at `N = 2,000,000` is below
the 31 MPa threshold: `(11e8/2e6)^(1/3) = 550^(1/3) ≤ 31`. -/
lemma catE_cube_root_le :
    ((11e8 : ℝ) / max (2000000 : ℝ) 1) ^ ((1 : ℝ) / 3) ≤ 31 := by
  rw [max_eq_left (by norm_num : (1 : ℝ) ≤ 2000000),
    show (11e8 : ℝ) / 2000000 = 550 by norm_num]
  calc (550 : ℝ) ^ ((1 : ℝ) / 3)
      ≤ (29791 : ℝ) ^ ((1 : ℝ) / 3) :=
        Real.rpow_le_rpow (by norm_num) (by norm_num) (by norm_num)
    _ = 31 := by
        rw [show (29791 : ℝ) = 31 ^ (3 : ℕ) by norm_num,
          ← Real.rpow_natCast 31 3,
          ← Real.rpow_mul (by norm_num : (0 : ℝ) ≤ 31)]
        norm_num

/-- C6: for `Sx > 0` and `N ≥ 1`, `check_fatigue` returns
`ratio = stressRange / max(thresholdStress, (Cf/N)^(1/3))` with
`stressRange = M·1e6/Sx`; in particular for category E at `N = 2,000,000`
the allowable equals the 31 MPa threshold (since `(11e8/2e6)^(1/3) < 31`)
and the ratio is `stressRange/31`. -/
theorem check_fatigue_spec (sec : Section) (M N : ℝ) (cat : FatigueCat)
    (hS : 0 < sec.Sx) (hN : 1 ≤ N) :
    (check_fatigue sec M N cat).ratio =
      (M * 1e6 / sec.Sx) /
        max (fatigueThresh cat) ((fatigueCf cat / N) ^ ((1 : ℝ) / 3)) ∧
    (check_fatigue sec M 2000000 FatigueCat.E).Fsr = 31 ∧
    (check_fatigue sec M 2000000 FatigueCat.E).ratio =
      (M * 1e6 / sec.Sx) / 31 := by
  have hS' : ¬ sec.Sx ≤ 0 := not_le.mpr hS
  have hth : (1 : ℝ) ≤ fatigueThresh cat := by
    cases cat <;> norm_num [fatigueThresh]
  refine ⟨?_, ?_, ?_⟩
  · simp only [check_fatigue]
    rw [if_neg hS', max_eq_left hN,
      max_eq_left (le_trans hth (le_max_left _ _))]
  · simp only [check_fatigue]
    rw [if_neg hS']
    simp only [fatigueThresh, fatigueCf]
    exact max_eq_left catE_cube_root_le
  · simp only [check_fatigue]
    rw [if_neg hS']
    simp only [fatigueThresh, fatigueCf]
    rw [max_eq_left catE_cube_root_le,
      max_eq_left (by norm_num : (1 : ℝ) ≤ 31)]

/-- A section with unit elastic modulus for the C6 witness. -/
def fatigueSection : Section := { Sx := 1 }

/-- Closed instance of C6 at `Sx = 1`, `M = 62`, `N = 2,000,000`,
category E. -/
theorem check_fatigue_spec_witness :
    ((0 : ℝ) < fatigueSection.Sx) ∧ ((1 : ℝ) ≤ 2000000) ∧
    ((check_fatigue fatigueSection 62 2000000 FatigueCat.E).ratio =
      (62 * 1e6 / fatigueSection.Sx) /
        max (fatigueThresh FatigueCat.E)
          ((fatigueCf FatigueCat.E / 2000000) ^ ((1 : ℝ) / 3)) ∧
    (check_fatigue fatigueSection 62 2000000 FatigueCat.E).Fsr = 31 ∧
    (check_fatigue fatigueSection 62 2000000 FatigueCat.E).ratio =
      (62 * 1e6 / fatigueSection.Sx) / 31) :=
  ⟨by norm_num [fatigueSection], by norm_num,
   check_fatigue_spec fatigueSection 62 2000000 FatigueCat.E
     (by norm_num [fatigueSection]) (by norm_num)⟩

/-- The claim's formula: midspan deflection (mm) of a simply supported
beam of span `L` (m) under a point load `P_N` (N) at `a` (mm) from the
left support, `delta = P·b·x·(L² − b² − x²)/(6·E·I·L)` evaluated at
`x = L/2`, piecewise by whether midspan is left or right of the load. -/
noncomputable def midspanDefl (sec : Section) (L P_N a : ℝ) : ℝ :=
  let L_mm := L * 1000
  let b := L_mm - a
  let x := L_mm / 2
  (if x ≤ a then
    P_N * b * x * (L_mm ^ 2 - b ^ 2 - x ^ 2) / (6 * E_STEEL * sec.Ix * L_mm)
   else
    P_N * a * (L_mm - x) * (L_mm ^ 2 - a ^ 2 - (L_mm - x) ^ 2) /
      (6 * E_STEEL * sec.Ix * L_mm)) * 1000

/-- The midspan point-load deflection term is nonnegative whenever the
load is nonnegative and on the beam. -/
lemma midspanDefl_nonneg (sec : Section) (L P_N a : ℝ) (hI : 0 < sec.Ix)
    (hP : 0 ≤ P_N) (hL : 0 < L) (ha0 : 0 ≤ a) (haL : a ≤ L * 1000) :
    0 ≤ midspanDefl sec L P_N a := by
  have hE : (0 : ℝ) < E_STEEL := by norm_num [E_STEEL]
  have hLmm : (0 : ℝ) < L * 1000 := by linarith
  have hden : (0 : ℝ) < 6 * E_STEEL * sec.Ix * (L * 1000) := by positivity
  simp only [midspanDefl]
  apply mul_nonneg _ (by norm_num)
  split_ifs with h
  · have hb0 : (0 : ℝ) ≤ L * 1000 - a := by linarith
    have hbr : (0 : ℝ) ≤ (L * 1000) ^ 2 - (L * 1000 - a) ^ 2 - (L * 1000 / 2) ^ 2 := by
      nlinarith
    exact div_nonneg
      (mul_nonneg (mul_nonneg (mul_nonneg hP hb0) (by linarith)) hbr) hden.le
  · push_neg at h
    have hbr : (0 : ℝ) ≤ (L * 1000) ^ 2 - a ^ 2 - (L * 1000 - L * 1000 / 2) ^ 2 := by
      nlinarith
    exact div_nonneg
      (mul_nonneg (mul_nonneg (mul_nonneg hP ha0) (by linarith)) hbr) hden.le

/-- C9: for a wheel-load list of exactly two positive loads on a span
`L ≥ wb`, `calc_actual_deflection` places the pair so the load resultant
is at midspan — first wheel at `L/2 − P2·wb/(P1+P2)`, clamped to
`[0, L−wb]` (in mm) — and returns the sum of the two wheels' midspan
point-load deflections; for any other wheel count it returns the single
midspan point-load value `P_total·L³/(48·E·I)` (mm conversions as in the
code). -/
theorem calc_actual_deflection_spec (sec : Section) (P1 P2 L wb : ℝ)
    (hI : 0 < sec.Ix) (hP1 : 0 < P1) (hP2 : 0 < P2) (hL : 0 < L)
    (hwb0 : 0 ≤ wb) (hwb : wb ≤ L) :
    (calc_actual_deflection sec [P1, P2] L wb =
      midspanDefl sec L (P1 * 1000)
        (max 0 (min (L * 1000 / 2 - P2 * (wb * 1000) / (P1 + P2))
          (L * 1000 - wb * 1000))) +
      midspanDefl sec L (P2 * 1000)
        (max 0 (min (L * 1000 / 2 - P2 * (wb * 1000) / (P1 + P2))
          (L * 1000 - wb * 1000)) + wb * 1000)) ∧
    ∀ (loads : List ℝ), loads.length ≠ 2 → 0 ≤ loads.sum →
      calc_actual_deflection sec loads L wb =
        loads.sum * 1000 * (L * 1000) ^ 3 / (48 * E_STEEL * sec.Ix) * 1000 := by
  have hE : (0 : ℝ) < E_STEEL := by norm_num [E_STEEL]
  constructor
  · set x1 : ℝ := max 0 (min (L * 1000 / 2 - P2 * (wb * 1000) / (P1 + P2))
      (L * 1000 - wb * 1000)) with hx1def
    have hwbL : wb * 1000 ≤ L * 1000 := by linarith
    have hx1a : 0 ≤ x1 := le_max_left _ _
    have hx1b : x1 ≤ L * 1000 - wb * 1000 :=
      max_le (by linarith) (min_le_right _ _)
    have h1 : 0 ≤ midspanDefl sec L (P1 * 1000) x1 :=
      midspanDefl_nonneg sec L (P1 * 1000) x1 hI (by linarith) hL hx1a
        (by linarith)
    have h2 : 0 ≤ midspanDefl sec L (P2 * 1000) (x1 + wb * 1000) :=
      midspanDefl_nonneg sec L (P2 * 1000) (x1 + wb * 1000) hI (by linarith)
        hL (by linarith) (by linarith)
    have hstep : calc_actual_deflection sec [P1, P2] L wb =
        |midspanDefl sec L (P1 * 1000) x1 +
         midspanDefl sec L (P2 * 1000) (x1 + wb * 1000)| := by
      simp only [calc_actual_deflection, midspanDefl, List.sum_cons,
        List.sum_nil, add_zero, List.length_cons, List.length_nil,
        List.getD_cons_zero, List.getD_cons_succ, hx1def]
      norm_num
      rw [if_pos (by linarith : (0 : ℝ) < P1 + P2)]
    rw [hstep, abs_of_nonneg (add_nonneg h1 h2)]
  · intro loads hlen hsum
    have hfac : 0 ≤ loads.sum * 1000 * (L * 1000) ^ 3 /
        (48 * E_STEEL * sec.Ix) * 1000 := by
      apply mul_nonneg _ (by norm_num)
      apply div_nonneg _ (by positivity)
      exact mul_nonneg (mul_nonneg hsum (by norm_num)) (by positivity)
    simp only [calc_actual_deflection]
    rw [if_neg hlen, abs_of_nonneg hfac]

/-- A section with unit moment of inertia for the C9 witness. -/
def deflSection : Section := { Ix := 1 }

/-- Closed instance of C9: two 1 kN wheels, 2 m span, 1 m wheel base. -/
theorem calc_actual_deflection_spec_witness :
    ((0 : ℝ) < deflSection.Ix) ∧ ((0 : ℝ) < 1) ∧ ((0 : ℝ) < 2) ∧
    ((0 : ℝ) ≤ 1) ∧ ((1 : ℝ) ≤ 2) ∧
    ((calc_actual_deflection deflSection [1, 1] 2 1 =
      midspanDefl deflSection 2 (1 * 1000)
        (max 0 (min (2 * 1000 / 2 - 1 * (1 * 1000) / (1 + 1))
          (2 * 1000 - 1 * 1000))) +
      midspanDefl deflSection 2 (1 * 1000)
        (max 0 (min (2 * 1000 / 2 - 1 * (1 * 1000) / (1 + 1))
          (2 * 1000 - 1 * 1000)) + 1 * 1000)) ∧
    ∀ (loads : List ℝ), loads.length ≠ 2 → 0 ≤ loads.sum →
      calc_actual_deflection deflSection loads 2 1 =
        loads.sum * 1000 * (2 * 1000) ^ 3 /
          (48 * E_STEEL * deflSection.Ix) * 1000) :=
  ⟨by norm_num [deflSection], by norm_num, by norm_num, by norm_num,
   by norm_num,
   calc_actual_deflection_spec deflSection 1 1 2 1
     (by norm_num [deflSection]) (by norm_num) (by norm_num) (by norm_num)
     (by norm_num) (by norm_num)⟩

end RunwayBeam
